import Mathlib

/-!
Verification of the Tellescope Canvas SDK record-matching and sync layer.

This file gives a shallow embedding of the core logic of the repository:

* `src/utilities/tellescope_api.py` — the generic REST CRUD client
  (`TellescopeAPI`): singular resource-name derivation and HTTP-status
  error classification.
* `src/utilities/canvas_enduser_lookup.py` and
  `src/utilities/canvas_user_lookup.py` — the identity lookup resolvers.
* `src/protocols/canvas_patient_to_tellescope_enduser.py` — the
  entity-creation sync (patient → enduser).
* `src/protocols/tellescope_enduser_to_canvas_metadata.py` — the
  field-sync-back sync (enduser custom fields → patient metadata).

Python dynamic values are modelled by the `PyVal` type; Python `dict`
records by association lists (`Doc`); Python exceptions by `PyExc`
(an exception class tag plus its message); fallible calls by `Except`.
The `json.dumps(..., separators=(',', ':'))` serializer is implemented
(`dumps`); `json.loads` — a Python standard-library function outside the
repository — is taken as an arbitrary parameter of the field-extraction
step wherever it occurs, since none of the verified properties depend
on its output.
-/

namespace Tellescope

/-! ## Python value and exception model -/

/-- A Python value as it appears in the record documents handled by the
SDK: `None`, booleans, integers, strings, lists and dicts. -/
inductive PyVal where
  | vnull
  | vbool (b : Bool)
  | vint (n : Int)
  | vstr (s : String)
  | vlist (xs : List PyVal)
  | vdict (kvs : List (String × PyVal))

/-- A record document (a Python dict with string keys), as returned by
the Tellescope API and as built by the sync protocols. -/
abbrev Doc := List (String × PyVal)

/-- The Python exception classes raised by the SDK code. -/
inductive ExcKind where
  | valueError
  | permissionError
  | connectionError
  | typeError
  | generic
deriving DecidableEq

/-- A raised Python exception: its class together with its message
(`str(e)`). -/
structure PyExc where
  kind : ExcKind
  msg : String
deriving DecidableEq

/-! ## Remote Resource Client: error classification
(`TellescopeAPI._make_request`, src/utilities/tellescope_api.py:64-82) -/

/-- The exception raised by `TellescopeAPI._make_request` for an HTTP
error response with the given status code and body text
(src/utilities/tellescope_api.py:70-80):
400 → `ValueError`, 401 → `PermissionError`, 404 → `ValueError`,
429 → `ConnectionError`, anything else → generic `Exception`. -/
def classifyHTTPError (status : Nat) (text : String) : PyExc :=
  if status = 400 then ⟨.valueError, "Invalid request data: " ++ text⟩
  else if status = 401 then ⟨.permissionError, "Invalid API key or insufficient permissions"⟩
  else if status = 404 then ⟨.valueError, "Resource not found"⟩
  else if status = 429 then ⟨.connectionError, "Rate limit exceeded - retry after delay"⟩
  else ⟨.generic, "Tellescope API error: " ++ toString status ++ " " ++ text⟩

/-- The exception raised by `TellescopeAPI._make_request` for a
network-level failure (`requests.exceptions.RequestException`,
src/utilities/tellescope_api.py:81-82): a `ConnectionError`. -/
def classifyNetworkError (errText : String) : PyExc :=
  ⟨.connectionError, "Network error connecting to Tellescope: " ++ errText⟩

/-! ## Remote Resource Client: singular resource-name derivation
(`TellescopeAPI._get_singular_resource_name`,
src/utilities/tellescope_api.py:39-62) -/

/-- The irregular plural → singular lookup table
(src/utilities/tellescope_api.py:42-56). -/
def special_cases : List (String × String) :=
  [("sms-messages", "sms-message"),
   ("chat-rooms", "chat-room"),
   ("calendar-events", "calendar-event"),
   ("calendar-event-templates", "calendar-event-template"),
   ("automation-steps", "automation-step"),
   ("automated-actions", "automated-action"),
   ("automation-triggers", "automation-trigger"),
   ("form-fields", "form-field"),
   ("form-responses", "form-response"),
   ("phone-calls", "phone-call"),
   ("enduser-medications", "enduser-medication"),
   ("enduser-observations", "enduser-observation"),
   ("managed-content-records", "managed-content-record")]

/-- Python `r.endswith('s')`: the last character is `'s'`. -/
def endswith_s (r : String) : Bool := r.data.getLast? == some 's'

/-- Python `r.rstrip('s')`: remove every trailing `'s'` character. -/
def rstrip_s (r : String) : String :=
  String.mk ((r.data.reverse.dropWhile (fun c => c == 's')).reverse)

/-- `TellescopeAPI._get_singular_resource_name`: table lookup first,
then `rstrip('s')` when the name ends with `'s'`, else unchanged
(src/utilities/tellescope_api.py:58-62). -/
def getSingularResourceName (resource_type : String) : String :=
  match special_cases.find? (fun p => p.1 == resource_type) with
  | some p => p.2
  | none => if endswith_s resource_type then rstrip_s resource_type else resource_type

/-! ## Compact JSON serialization
(`json.dumps(value, ensure_ascii=False, separators=(',', ':'))` as used
in src/protocols/tellescope_enduser_to_canvas_metadata.py:198) -/

/-- Lowercase hexadecimal digit. -/
def hexDigit (n : Nat) : Char := if n < 10 then Char.ofNat (48 + n) else Char.ofNat (87 + n)

/-- Four lowercase hexadecimal digits, as in the `\uXXXX` escapes
produced by `json.dumps`. -/
def hex4 (n : Nat) : String :=
  String.mk [hexDigit (n / 4096 % 16), hexDigit (n / 256 % 16), hexDigit (n / 16 % 16),
    hexDigit (n % 16)]

/-- JSON string escaping of one character as performed by `json.dumps`
with `ensure_ascii=False`: quote and backslash escaped, the usual
control-character shorthands, `\uXXXX` for the remaining control
characters, every other character left as is. -/
def escapeChar (c : Char) : String :=
  if c = '"' then "\\\"" else if c = '\\' then "\\\\"
  else if c = Char.ofNat 10 then "\\n" else if c = Char.ofNat 9 then "\\t"
  else if c = Char.ofNat 13 then "\\r" else if c = Char.ofNat 8 then "\\b"
  else if c = Char.ofNat 12 then "\\f"
  else if c.toNat < 32 then "\\u" ++ hex4 c.toNat
  else String.mk [c]

/-- A JSON string literal: the escaped characters between quotes. -/
def jsonEscape (s : String) : String := "\"" ++ String.join (s.data.map escapeChar) ++ "\""

mutual

/-- `json.dumps(v, ensure_ascii=False, separators=(',', ':'))`: compact
serialization, no whitespace, dict keys in their original order. -/
def dumps : PyVal → String
  | .vnull => "null"
  | .vbool b => cond b "true" "false"
  | .vint n => toString n
  | .vstr s => jsonEscape s
  | .vlist xs => "[" ++ dumpsItems xs ++ "]"
  | .vdict kvs => "\x7b" ++ dumpsEntries kvs ++ "\x7d"

/-- List items joined by the item separator `","`. -/
def dumpsItems : List PyVal → String
  | [] => ""
  | [x] => dumps x
  | x :: y :: rest => dumps x ++ "," ++ dumpsItems (y :: rest)

/-- Dict entries `key:value` joined by `","`, keys in original order. -/
def dumpsEntries : List (String × PyVal) → String
  | [] => ""
  | [(k, v)] => jsonEscape k ++ ":" ++ dumps v
  | (k, v) :: e :: rest => jsonEscape k ++ ":" ++ dumps v ++ "," ++ dumpsEntries (e :: rest)

end

/-! ## Field-sync-back: per-field string coercion and metadata effects
(`Protocol._sync_custom_fields_to_metadata`,
src/protocols/tellescope_enduser_to_canvas_metadata.py:173-223) -/

/-- A side effect produced by a sync protocol: an upsert-metadata
effect (`EffectType.UPSERT_PATIENT_METADATA`) or a structured log entry
identified by its `operation_type` / `error_category` tag. -/
inductive MetaEffect where
  | upsertMetadata (patient_id ns key value : String)
  | logSuccess (operation_type : String)
  | logError (error_category : String)
deriving DecidableEq

/-- The per-field value coercion of
`Protocol._sync_custom_fields_to_metadata`
(src/protocols/tellescope_enduser_to_canvas_metadata.py:188-201):
`None` → field skipped, strings unchanged, booleans → lowercase
`"true"`/`"false"`, dicts and lists → compact JSON, everything else →
`str(value)`. -/
def coerceFieldValue : PyVal → Option String
  | .vnull => none
  | .vstr s => some s
  | .vbool b => some (cond b "true" "false")
  | .vlist xs => some (dumps (.vlist xs))
  | .vdict kvs => some (dumps (.vdict kvs))
  | .vint n => some (toString n)

/-- `Protocol._sync_custom_fields_to_metadata`: one
`UPSERT_PATIENT_METADATA` effect per non-null field, in field order,
under the fixed namespace `"tellescope_custom_fields"`
(src/protocols/tellescope_enduser_to_canvas_metadata.py:184-223). -/
def syncCustomFieldsToMetadata (patient_id : String) (custom_fields : List (String × PyVal)) :
    List MetaEffect :=
  custom_fields.filterMap fun kv =>
    (coerceFieldValue kv.2).map fun v =>
      .upsertMetadata patient_id "tellescope_custom_fields" kv.1 v

/-! ## Entity-creation sync: patient → enduser field mapping
(`Protocol._map_patient_to_enduser`,
src/protocols/canvas_patient_to_tellescope_enduser.py:185-250) -/

/-- A Canvas patient instance as read by the protocol. Optional
attributes read defensively with `getattr(..., default)` are modelled
as `Option String`; `id` is the string form `str(patient.id)` used at
every comparison point. -/
structure CanvasPatient where
  id : String
  first_name : Option String
  last_name : Option String
  email : Option String
  phone_number : Option String
  date_of_birth : Option String
  sex : Option String
  address : Option String
  date_created : Option String

/-- The Canvas sex code → Tellescope gender label table
(src/protocols/canvas_patient_to_tellescope_enduser.py:196-201). -/
def gender_mapping : List (String × String) :=
  [("M", "Male"), ("F", "Female"), ("O", "Other"), ("Other", "Other")]

/-- `gender_mapping.get(getattr(patient, 'sex', None), 'Unknown')`:
table lookup with an `"Unknown"` default for unmapped or absent codes
(src/protocols/canvas_patient_to_tellescope_enduser.py:229). -/
def lookupGender (sex : Option String) : String :=
  match sex with
  | none => "Unknown"
  | some s =>
    match gender_mapping.find? (fun p => p.1 == s) with
    | some p => p.2
    | none => "Unknown"

/-- The synthesized fallback email
`f"patient{patient.id}@canvas.medical"`
(src/protocols/canvas_patient_to_tellescope_enduser.py:222). -/
def fallbackEmail (id : String) : String := "patient" ++ id ++ "@canvas.medical"

/-- `getattr(patient, 'email', None) or fallback`: Python `or` falls
through on `None` and on the empty (falsy) string. -/
def emailValue (p : CanvasPatient) : String :=
  match p.email with
  | some e => if e == "" then fallbackEmail p.id else e
  | none => fallbackEmail p.id

/-- The `date_of_birth` handling
(src/protocols/canvas_patient_to_tellescope_enduser.py:204-211): absent
or falsy (empty) values leave it `None`; string values are kept as is.
(The `datetime`-typed branch, which reformats via `strftime`, is outside
the modelled value domain: dates are modelled in their string form.) -/
def dobValue (p : CanvasPatient) : PyVal :=
  match p.date_of_birth with
  | some s => if s == "" then .vnull else .vstr s
  | none => .vnull

/-- The nested `"fields"` sub-dict
(src/protocols/canvas_patient_to_tellescope_enduser.py:233-245),
including the conditionally appended Canvas-specific entries. `now`
stands for `datetime.now().isoformat()`. -/
def patientFieldsDict (p : CanvasPatient) (now : String) : List (String × PyVal) :=
  [("canvas_patient_id", .vstr p.id),
   ("sync_timestamp", .vstr now),
   ("sync_source", .vstr "canvas_patient_creation_protocol")]
  ++ (match p.address with
      | some a => [("canvas_address", PyVal.vstr a)]
      | none => [])
  ++ (match p.date_created with
      | some d => [("canvas_created_date", PyVal.vstr d)]
      | none => [])

/-- The enduser document as built before stripping
(src/protocols/canvas_patient_to_tellescope_enduser.py:214-245). -/
def enduserBase (p : CanvasPatient) (now : String) : Doc :=
  [("externalId", .vstr p.id),
   ("source", .vstr "Canvas"),
   ("fname", .vstr (p.first_name.getD "")),
   ("lname", .vstr (p.last_name.getD "")),
   ("email", .vstr (emailValue p)),
   ("phone", match p.phone_number with | some s => PyVal.vstr s | none => PyVal.vnull),
   ("dateOfBirth", dobValue p),
   ("gender", .vstr (lookupGender p.sex)),
   ("tags", .vlist [.vstr "canvas-patient", .vstr "auto-synced"]),
   ("fields", .vdict (patientFieldsDict p now))]

/-- The stripping predicate
(src/protocols/canvas_patient_to_tellescope_enduser.py:248):
`v != '' and v is not None`. -/
def keepsValue : PyVal → Bool
  | .vnull => false
  | .vstr s => !(s == "")
  | _ => true

/-- `Protocol._map_patient_to_enduser`: build the document, then strip
empty-string and `None` values before submission. -/
def mapPatientToEnduser (p : CanvasPatient) (now : String) : Doc :=
  (enduserBase p now).filter (fun kv => keepsValue kv.2)

/-! ## Entity-creation sync: duplicate check and compute
(`Protocol.compute` and `Protocol._find_existing_enduser`,
src/protocols/canvas_patient_to_tellescope_enduser.py:32-183) -/

/-- The outcome of one entity-creation sync run. -/
inductive SyncOutcome where
  | created
  | alreadyExists
deriving DecidableEq

/-- One run of the entity-creation sync: its outcome, the resulting
record store, and how many `create` calls it issued. -/
structure SyncResult where
  outcome : SyncOutcome
  store : List Doc
  createCalls : Nat

/-- The MongoDB filter `{"externalId": str(canvas_patient_id)}` used by
the duplicate check (src/protocols/canvas_patient_to_tellescope_enduser.py:151),
evaluated against one stored document. -/
def matchesExternalId (s : String) (d : Doc) : Bool :=
  match d.lookup "externalId" with
  | some (.vstr t) => t == s
  | _ => false

/-- `find_by("endusers", {"externalId": str(id)})`: the first stored
record matching the filter, if any. -/
def find_by_externalId (store : List Doc) (s : String) : Option Doc :=
  store.find? (matchesExternalId s)

/-- `Protocol._find_existing_enduser`
(src/protocols/canvas_patient_to_tellescope_enduser.py:139-183): the
underlying API lookup may raise; any exception is caught, logged as a
warning, and reported as `None` (no existing record). -/
def find_existing_enduser : Except PyExc (Option Doc) → Option Doc
  | .ok r => r
  | .error _ => none

/-- `Protocol.compute` with the duplicate-check API call result
injected (src/protocols/canvas_patient_to_tellescope_enduser.py:56-99):
if the (exception-swallowing) duplicate check reports a record, return
`AlreadyExists` without creating; else map the patient and issue one
`create` call. -/
def computeSyncWith (dupCheck : Except PyExc (Option Doc)) (store : List Doc)
    (p : CanvasPatient) (now : String) : SyncResult :=
  match find_existing_enduser dupCheck with
  | some _ => ⟨.alreadyExists, store, 0⟩
  | none => ⟨.created, store ++ [mapPatientToEnduser p now], 1⟩

/-- `Protocol.compute` against a store that answers the duplicate check
by evaluating the `{"externalId": str(id)}` filter. -/
def computeSync (store : List Doc) (p : CanvasPatient) (now : String) : SyncResult :=
  computeSyncWith (Except.ok (find_by_externalId store p.id)) store p now

/-! ## Field-sync-back: rate limiting and compute
(`Protocol.compute`, src/protocols/tellescope_enduser_to_canvas_metadata.py:53-139) -/

/-- A value stored in the Canvas rate-limit cache
(src/protocols/tellescope_enduser_to_canvas_metadata.py:91,106,118-123). -/
inductive CacheVal where
  | no_enduser
  | no_fields
  | sync_data (enduser_id : PyVal) (fields_count : Nat) (timestamp : String)

/-- The rate-limit cache, keyed by `"patient_metadata_sync:{id}"`.
Entries expire after `RATE_LIMIT_SECONDS`; within the suppression
window an entry is present. -/
abbrev Cache := List (String × CacheVal)

/-- `RATE_LIMIT_SECONDS = 300`
(src/protocols/tellescope_enduser_to_canvas_metadata.py:34). -/
def RATE_LIMIT_SECONDS : Nat := 300

/-- The cache key `f"patient_metadata_sync:{patient_id}"`
(src/protocols/tellescope_enduser_to_canvas_metadata.py:75). -/
def cacheKey (patient_id : String) : String := "patient_metadata_sync:" ++ patient_id

/-- `cache.set(key, value, RATE_LIMIT_SECONDS)`: overwrite the entry
for `key`. -/
def cacheSet (k : String) (v : CacheVal) (c : Cache) : Cache :=
  (k, v) :: c.eraseP (fun kv => kv.1 == k)

/-- `Protocol._extract_custom_fields`
(src/protocols/tellescope_enduser_to_canvas_metadata.py:142-171):
read `enduser.get("fields", {})`; falsy values give `{}`; a string is
parsed with `json.loads` (invalid JSON → `{}`); a non-dict result gives
`{}`. `json_loads` is the Python standard-library JSON parser, passed
as a parameter. -/
def extract_custom_fields (json_loads : String → Option PyVal) (enduser : Doc) :
    List (String × PyVal) :=
  match enduser.lookup "fields" with
  | none => []
  | some v =>
    match v with
    | .vdict kvs => kvs
    | .vstr s =>
      if s == "" then []
      else
        match json_loads s with
        | some (.vdict kvs) => kvs
        | _ => []
    | _ => []

/-- One run of the field-sync-back protocol: the emitted effects, the
resulting cache, and how many network lookups it performed. -/
structure MetaResult where
  effects : List MetaEffect
  cache : Cache
  lookups : Nat

/-- `Protocol.compute` of the field-sync-back sync
(src/protocols/tellescope_enduser_to_canvas_metadata.py:53-139), for a
present patient instance and configured credentials, with the enduser
lookup call result injected. A present cache key short-circuits with a
`rate_limited` log effect, no network call and no cache change. A
lookup exception is caught by the protocol's top-level handler (error
effect, cache unchanged). When the found enduser lacks an `"id"` key,
`enduser['id']` raises `KeyError` into the same handler. All other
paths write the cache entry for the key. -/
def metaCompute (json_loads : String → Option PyVal) (cache : Cache) (patient_id : String)
    (lookupResult : Except PyExc (Option Doc)) (now : String) : MetaResult :=
  if (cache.lookup (cacheKey patient_id)).isSome then
    ⟨[.logSuccess "rate_limited"], cache, 0⟩
  else
    match lookupResult with
    | .error _ => ⟨[.logError "sync_error"], cache, 1⟩
    | .ok none =>
      ⟨[.logSuccess "enduser_not_found"], cacheSet (cacheKey patient_id) .no_enduser cache, 1⟩
    | .ok (some enduser) =>
      match enduser.lookup "id" with
      | none => ⟨[.logError "sync_error"], cache, 1⟩
      | some idv =>
        let cf := extract_custom_fields json_loads enduser
        if cf.isEmpty then
          ⟨[.logSuccess "no_custom_fields"], cacheSet (cacheKey patient_id) .no_fields cache, 1⟩
        else
          ⟨syncCustomFieldsToMetadata patient_id cf ++ [.logSuccess "metadata_sync"],
           cacheSet (cacheKey patient_id) (.sync_data idv cf.length now) cache, 1⟩

/-! ## Identity Lookup Resolver: user lookup
(src/utilities/canvas_user_lookup.py) -/

/-- Python truthiness of an optional string argument
(`if first_name and last_name:`): present and non-empty. -/
def truthyS : Option String → Bool
  | some s => !(s == "")
  | none => false

/-- The filter `{"canvasId": str(canvas_staff_id)}` of
`CanvasUserLookup.find_user_by_canvas_id`
(src/utilities/canvas_user_lookup.py:88), evaluated against a stored
user record. -/
def find_by_canvasId (store : List Doc) (canvas_staff_id : String) : Option Doc :=
  store.find? fun d =>
    match d.lookup "canvasId" with
    | some (.vstr t) => t == canvas_staff_id
    | _ => false

/-- The filter `{"$and": [{"fname": first.strip()}, {"lname": last.strip()}]}`
of `CanvasUserLookup.find_user_by_name`
(src/utilities/canvas_user_lookup.py:109-116), evaluated against a
stored user record. -/
def find_by_name (store : List Doc) (first_name last_name : String) : Option Doc :=
  store.find? fun d =>
    (match d.lookup "fname" with
     | some (.vstr t) => t == first_name.trim
     | _ => false) &&
    (match d.lookup "lname" with
     | some (.vstr t) => t == last_name.trim
     | _ => false)

/-- The `TypeError` raised by the Python call
`self.tellescope_api.list("users", mongodb_filter={}, limit=1)`
(src/utilities/canvas_user_lookup.py:132): `TellescopeAPI.list` accepts
only `(resource_type, filters, mongodb_filter)`
(src/utilities/tellescope_api.py:153-154), so passing the extra keyword
argument `limit` raises before the function body runs. -/
def typeError_list_limit : PyExc :=
  ⟨.typeError, "list() got an unexpected keyword argument \x27limit\x27"⟩

/-- `CanvasUserLookup.get_any_user`
(src/utilities/canvas_user_lookup.py:121-136): the `list` call raises
`TypeError` (see `typeError_list_limit`), which the method's handler
wraps in a generic `Exception`. The store never gets consulted. -/
def get_any_user (_store : List Doc) : Except PyExc (Option Doc) :=
  .error ⟨.generic, "Error getting any User: " ++ typeError_list_limit.msg⟩

/-- The body of
`CanvasUserLookup.find_user_for_canvas_practitioner`
(src/utilities/canvas_user_lookup.py:51-69) before its outer exception
wrapper: (1) match by `canvasId`, (2) match by name when both parts are
truthy, (3) `get_any_user` when the policy flag is set, else `None`. -/
def user_lookup_steps (store : List Doc) (canvas_staff_id : String)
    (first_name last_name : Option String) (return_any_if_no_match : Bool) :
    Except PyExc (Option Doc) :=
  match find_by_canvasId store canvas_staff_id with
  | some u => .ok (some u)
  | none =>
    match (if truthyS first_name && truthyS last_name then
             find_by_name store ((first_name.getD "").trim) ((last_name.getD "").trim)
           else none) with
    | some u => .ok (some u)
    | none =>
      if return_any_if_no_match then
        match get_any_user store with
        | .error e => .error e
        | .ok (some u) => .ok (some u)
        | .ok none => .ok none
      else .ok none

/-- `CanvasUserLookup.find_user_for_canvas_practitioner`
(src/utilities/canvas_user_lookup.py:33-72): the lookup steps, with any
escaping exception replaced by a new generic `Exception` whose message
is prefixed with a context string (src/utilities/canvas_user_lookup.py:71-72). -/
def find_user_for_canvas_practitioner (store : List Doc) (canvas_staff_id : String)
    (first_name last_name : Option String) (return_any_if_no_match : Bool) :
    Except PyExc (Option Doc) :=
  match user_lookup_steps store canvas_staff_id first_name last_name return_any_if_no_match with
  | .ok r => .ok r
  | .error e => .error ⟨.generic, "Error searching for Canvas User: " ++ e.msg⟩

/-! ## Identity Lookup Resolver: enduser lookup
(src/utilities/canvas_enduser_lookup.py) -/

/-- A Canvas foreign id as handed to the lookup: the caller may pass a
string or an integer; `str(...)` is applied at every comparison point. -/
inductive PyId where
  | str (s : String)
  | int (n : Int)

/-- Python `str(x)` on a foreign id. -/
def pyStr : PyId → String
  | .str s => s
  | .int n => toString n

/-- The MongoDB filter grammar used by the lookups: field equality,
binary `$and` / `$or`, and `$elemMatch` containment on an embedded
list field (src/utilities/canvas_enduser_lookup.py:48-67). -/
inductive MFilter where
  | eqF (field value : String)
  | and2 (a b : MFilter)
  | or2 (a b : MFilter)
  | elemMatch (field : String) (conds : List (String × String))

/-- Evaluate a filter against one stored document. `$elemMatch` is an
order-independent containment test over the embedded list. -/
def matchesFilter (d : Doc) : MFilter → Bool
  | .eqF f v =>
    (match d.lookup f with
     | some (.vstr t) => t == v
     | _ => false)
  | .and2 a b => matchesFilter d a && matchesFilter d b
  | .or2 a b => matchesFilter d a || matchesFilter d b
  | .elemMatch f conds =>
    match d.lookup f with
    | some (.vlist xs) =>
      xs.any fun x =>
        match x with
        | .vdict kvs =>
          conds.all fun c =>
            match kvs.lookup c.1 with
            | some (.vstr t) => t == c.2
            | _ => false
        | _ => false
    | _ => false

/-- The primary-match filter
`{"$and": [{"source": "Canvas"}, {"externalId": str(patient_id)}]}`
(src/utilities/canvas_enduser_lookup.py:102-107). -/
def primary_filter (patient_id : PyId) : MFilter :=
  .and2 (.eqF "source" "Canvas") (.eqF "externalId" (pyStr patient_id))

/-- The secondary-match filter
`{"references": {"$elemMatch": {"type": "Canvas", "id": str(patient_id)}}}`
(src/utilities/canvas_enduser_lookup.py:129-136). -/
def reference_filter (patient_id : PyId) : MFilter :=
  .elemMatch "references" [("type", "Canvas"), ("id", pyStr patient_id)]

/-- The combined `$or` filter of
`CanvasEnduserLookup.find_enduser_for_canvas_patient`
(src/utilities/canvas_enduser_lookup.py:48-67). -/
def combined_filter (patient_id : PyId) : MFilter :=
  .or2 (primary_filter patient_id) (reference_filter patient_id)

/-- `CanvasEnduserLookup.find_enduser_by_external_id`: first stored
record matching the primary filter. -/
def find_enduser_by_external_id (store : List Doc) (patient_id : PyId) : Option Doc :=
  store.find? (fun d => matchesFilter d (primary_filter patient_id))

/-- `CanvasEnduserLookup.find_enduser_for_canvas_patient`: first stored
record matching the combined filter. -/
def find_enduser_for_canvas_patient (store : List Doc) (patient_id : PyId) : Option Doc :=
  store.find? (fun d => matchesFilter d (combined_filter patient_id))

/-! ## Identity Lookup Resolver: transport-error propagation
(src/utilities/canvas_enduser_lookup.py:84-86 and
src/utilities/canvas_user_lookup.py:87-92) -/

/-- The exception path of
`CanvasEnduserLookup.find_enduser_for_canvas_patient`
(src/utilities/canvas_enduser_lookup.py:84-86): the handler logs and
then re-raises with a bare `raise`, so the API call result — success or
exception — passes through unchanged. -/
def find_enduser_for_canvas_patient_err :
    Except PyExc (Option Doc) → Except PyExc (Option Doc)
  | .ok r => .ok r
  | .error e => .error e

/-- The exception path of `CanvasUserLookup.find_user_by_canvas_id`
(src/utilities/canvas_user_lookup.py:87-92): the handler raises a NEW
generic `Exception` whose message prefixes a context string to
`str(e)`. -/
def find_user_by_canvas_id_wrap :
    Except PyExc (Option Doc) → Except PyExc (Option Doc)
  | .ok r => .ok r
  | .error e => .error ⟨.generic, "Error searching for Canvas User by ID: " ++ e.msg⟩

/-- A sample transport failure, as classified by
`TellescopeAPI._make_request` for a network error. -/
def sampleNetErr : PyExc := ⟨.connectionError, "Network error connecting to Tellescope: boom"⟩

/-- The end-to-end scenario entity
`{id: "canvas_patient_123", sex: "M", email: None}` with no other
attributes supplied. -/
def scenario_patient : CanvasPatient :=
  ⟨"canvas_patient_123", none, none, none, none, none, some "M", none, none⟩

/-- A Canvas patient whose id has the empty string form. -/
def empty_id_patient : CanvasPatient :=
  ⟨"", none, none, none, none, none, none, none, none⟩

/-! ## Helper lemmas -/

/-- The first element surviving `dropWhile p` does not satisfy `p`. -/
theorem dropWhile_head_not {α} (p : α → Bool) (l : List α) (c : α)
    (h : (l.dropWhile p).head? = some c) : p c = false := by
  induction l with
  | nil => simp [List.dropWhile] at h
  | cons a t ih =>
    rw [List.dropWhile_cons] at h
    by_cases hp : p a = true
    · rw [if_pos hp] at h
      exact ih h
    · rw [if_neg hp] at h
      simp only [List.head?_cons, Option.some.injEq] at h
      subst h
      exact Bool.not_eq_true _ ▸ (by simpa using hp)

/-! ## C1 — Remote Resource Client error taxonomy -/

/-- C1 counterexample: the claim asserts each raised error kind is
distinct by status — in particular 404 distinguishable from 400 and 429
distinguishable from a network failure. In the code
(src/utilities/tellescope_api.py:70-82) HTTP 404 and HTTP 400 both
raise `ValueError`, and HTTP 429 and a network failure both raise
`ConnectionError`, so the asserted distinctions fail at these concrete
responses. -/
theorem error_taxonomy_not_distinct :
    (classifyHTTPError 404 "nf").kind = (classifyHTTPError 400 "bad").kind ∧
    (classifyHTTPError 429 "rl").kind = (classifyNetworkError "timeout").kind :=
  ⟨rfl, rfl⟩

/-- C1 amended: the raised exception class is determined by status code
— 400 → `ValueError`, 401 → `PermissionError`, 404 → `ValueError`,
429 → `ConnectionError`, any other HTTP error → generic `Exception`,
network failure → `ConnectionError`. The kind for 404 coincides with
the kind for 400 and the kind for 429 coincides with the kind for a
network failure; those cases differ only in exception message. -/
theorem error_taxonomy_by_status (status : Nat) (text netText : String)
    (h400 : status ≠ 400) (h401 : status ≠ 401) (h404 : status ≠ 404) (h429 : status ≠ 429) :
    (classifyHTTPError 400 text).kind = ExcKind.valueError ∧
    (classifyHTTPError 401 text).kind = ExcKind.permissionError ∧
    (classifyHTTPError 404 text).kind = ExcKind.valueError ∧
    (classifyHTTPError 429 text).kind = ExcKind.connectionError ∧
    (classifyHTTPError status text).kind = ExcKind.generic ∧
    (classifyNetworkError netText).kind = ExcKind.connectionError ∧
    (classifyHTTPError 404 text).msg ≠ (classifyHTTPError 400 text).msg ∧
    (classifyHTTPError 429 text).msg ≠ (classifyNetworkError netText).msg := by
  refine ⟨rfl, rfl, rfl, rfl, ?_, rfl, ?_, ?_⟩
  · unfold classifyHTTPError
    rw [if_neg h400, if_neg h401, if_neg h404, if_neg h429]
  · intro hmsg
    have hlen := congrArg String.length hmsg
    rw [show (classifyHTTPError 404 text).msg = "Resource not found" from rfl,
        show (classifyHTTPError 400 text).msg = "Invalid request data: " ++ text from rfl,
        String.length_append] at hlen
    have e1 : ("Resource not found" : String).length = 18 := rfl
    have e2 : ("Invalid request data: " : String).length = 22 := rfl
    omega
  · intro hmsg
    have hlen := congrArg String.length hmsg
    rw [show (classifyHTTPError 429 text).msg = "Rate limit exceeded - retry after delay" from
          rfl,
        show (classifyNetworkError netText).msg =
          "Network error connecting to Tellescope: " ++ netText from rfl,
        String.length_append] at hlen
    have e1 : ("Rate limit exceeded - retry after delay" : String).length = 39 := rfl
    have e2 : ("Network error connecting to Tellescope: " : String).length = 40 := rfl
    omega

/-- C1 witness: the amended classification evaluated at status 402. -/
theorem error_taxonomy_by_status_witness :
    (classifyHTTPError 402 "x").kind = ExcKind.generic :=
  (error_taxonomy_by_status 402 "x" "y" (by decide) (by decide) (by decide)
    (by decide)).2.2.2.2.1

/-! ## C2 — user-lookup return-any fallback -/

/-- C2: code bug. With the policy flag set, no `canvasId` match, no
name parts, and one existing user in the store, the operation does not
return the existing user: `get_any_user` always raises, because the
call `tellescope_api.list("users", mongodb_filter={}, limit=1)`
(src/utilities/canvas_user_lookup.py:132) passes a keyword argument
`limit` that `TellescopeAPI.list`
(src/utilities/tellescope_api.py:153-154) does not accept — a
`TypeError`, wrapped twice into generic `Exception`s. -/
theorem return_any_fallback_raises :
    find_by_canvasId [[("id", PyVal.vstr "u1")]] "staff_1" = none ∧
    find_user_for_canvas_practitioner [[("id", PyVal.vstr "u1")]] "staff_1" none none true =
      .error ⟨.generic,
        "Error searching for Canvas User: Error getting any User: " ++
          "list() got an unexpected keyword argument \x27limit\x27"⟩ :=
  ⟨rfl, rfl⟩

/-! ## C6 — custom-field string coercion -/

/-- C6: the per-field coercion of the field-sync-back sync maps `True`
to `"true"` and `False` to `"false"`, omits null-valued fields (no
effect emitted), serializes dicts and lists to compact JSON with keys
in original order, passes strings through unchanged, and converts every
other value with `str(...)` (e.g. `42` → `"42"`). -/
theorem custom_field_coercion (s : String) (n : Int) :
    coerceFieldValue (.vbool true) = some "true" ∧
    coerceFieldValue (.vbool false) = some "false" ∧
    coerceFieldValue .vnull = none ∧
    syncCustomFieldsToMetadata "p" [("k", .vnull)] = [] ∧
    coerceFieldValue (.vdict [("a", .vint 1)]) = some "\x7b\"a\":1\x7d" ∧
    coerceFieldValue (.vlist [.vint 1, .vint 2, .vint 3]) = some "[1,2,3]" ∧
    coerceFieldValue (.vdict [("b", .vint 1), ("a", .vint 2)]) =
      some "\x7b\"b\":1,\"a\":2\x7d" ∧
    coerceFieldValue (.vstr s) = some s ∧
    coerceFieldValue (.vint 42) = some "42" ∧
    coerceFieldValue (.vint n) = some (toString n) ∧
    syncCustomFieldsToMetadata "p" [("k", .vint 42)] =
      [.upsertMetadata "p" "tellescope_custom_fields" "k" "42"] :=
  ⟨rfl, rfl, rfl, rfl, rfl, rfl, rfl, rfl, rfl, rfl, rfl⟩

/-! ## C8 — string coercion of foreign ids in the enduser lookup -/

/-- C8: the primary identity lookup is invariant under string coercion
of the foreign id: for a foreign id given as string or integer, the
constructed filter — and hence the lookup result on any store — equals
that for its string form, for the primary source+externalId match and
the references containment match alike
(src/utilities/canvas_enduser_lookup.py:46-113). -/
theorem lookup_string_coercion_invariant (x : PyId) (store : List Doc) :
    primary_filter x = primary_filter (.str (pyStr x)) ∧
    combined_filter x = combined_filter (.str (pyStr x)) ∧
    find_enduser_by_external_id store x = find_enduser_by_external_id store (.str (pyStr x)) ∧
    find_enduser_for_canvas_patient store x =
      find_enduser_for_canvas_patient store (.str (pyStr x)) := by
  cases x <;> exact ⟨rfl, rfl, rfl, rfl⟩

/-! ## C9 — transport-error propagation in the lookup resolvers -/

/-- C9 counterexample: the claim asserts both lookup variants propagate
a transport error unchanged. The user-lookup variant
(src/utilities/canvas_user_lookup.py:91-92) re-raises a NEW generic
`Exception` with a context-prefixed message: at this concrete network
failure, the propagated exception differs from the one raised by the
client. -/
theorem user_lookup_error_not_unchanged :
    find_user_by_canvas_id_wrap (.error sampleNetErr) =
      .error ⟨.generic,
        "Error searching for Canvas User by ID: Network error connecting to Tellescope: boom"⟩ ∧
    ((⟨ExcKind.generic,
        "Error searching for Canvas User by ID: Network error connecting to Tellescope: boom"⟩ :
          PyExc) == sampleNetErr) = false :=
  ⟨rfl, by decide⟩

/-- C9 amended: the enduser-lookup variant propagates any transport/API
error unchanged (bare `raise`,
src/utilities/canvas_enduser_lookup.py:84-86); the user-lookup variant
never swallows an error into a success, but replaces it with a new
generic `Exception` whose message prefixes a context string to the
original message (src/utilities/canvas_user_lookup.py:91-92). -/
theorem lookup_error_propagation (r : Except PyExc (Option Doc)) (e : PyExc)
    (o : Option Doc) :
    find_enduser_for_canvas_patient_err r = r ∧
    find_user_by_canvas_id_wrap (.ok o) = .ok o ∧
    find_user_by_canvas_id_wrap (.error e) =
      .error ⟨.generic, "Error searching for Canvas User by ID: " ++ e.msg⟩ ∧
    ∀ e2, find_user_by_canvas_id_wrap (.error e2) ≠ .ok o := by
  refine ⟨?_, rfl, rfl, ?_⟩
  · cases r <;> rfl
  · intro e2 h
    exact Except.noConfusion h

/-- C9 witness: unchanged propagation evaluated at a concrete error. -/
theorem lookup_error_propagation_witness :
    find_enduser_for_canvas_patient_err (Except.error sampleNetErr) =
      Except.error sampleNetErr :=
  (lookup_error_propagation (.error sampleNetErr) sampleNetErr none).1

/-! ## C10 — duplicate-check exceptions are swallowed -/

/-- C10: when the duplicate-check lookup of the entity-creation sync
raises, `_find_existing_enduser` swallows the exception and reports no
existing record (src/protocols/canvas_patient_to_tellescope_enduser.py:175-183),
so `compute` proceeds to the create step — one create call is issued
regardless of the store contents, so a transport failure during the
duplicate check can create a record despite an existing match. -/
theorem duplicate_check_error_swallowed (e : PyExc) (store : List Doc)
    (p : CanvasPatient) (t : String) :
    find_existing_enduser (.error e) = none ∧
    (computeSyncWith (.error e) store p t).outcome = SyncOutcome.created ∧
    (computeSyncWith (.error e) store p t).createCalls = 1 ∧
    (computeSyncWith (.error e) store p t).store = store ++ [mapPatientToEnduser p t] :=
  ⟨rfl, rfl, rfl, rfl⟩

/-! ## C4 — singular resource-name derivation -/

/-- C4 counterexample: the claim says the fallback strips exactly one
trailing `"s"`, which at input `"boss"` would give `"bos"`. The code
uses Python `rstrip('s')` (src/utilities/tellescope_api.py:62), which
removes every trailing `'s'`: `"boss"` maps to `"bo"`. -/
theorem singularize_strips_all_trailing_s :
    getSingularResourceName "boss" = "bo" ∧ (("bo" : String) == "bos") = false :=
  ⟨rfl, by decide⟩

/-- C4 amended: the derivation is a pure total function; it returns the
mapped value for each of the 13 irregular plural forms in the lookup
table, and for every other input removes ALL trailing `'s'` characters
(Python `rstrip('s')`) when the input ends with `'s'` — so the result
never ends in `'s'` and the input is the result followed by some run of
`'s'` — and returns the input unchanged otherwise (`"tickets"` →
`"ticket"`, `"enduser"` → `"enduser"`). -/
theorem singularize_total_spec (r : String)
    (h : special_cases.find? (fun p => p.1 == r) = none) :
    (getSingularResourceName "tickets" = "ticket" ∧
     getSingularResourceName "enduser" = "enduser" ∧
     ∀ p ∈ special_cases, getSingularResourceName p.1 = p.2) ∧
    (∃ k, r.data = (getSingularResourceName r).data ++ List.replicate k 's') ∧
    (getSingularResourceName r).data.getLast? ≠ some 's' := by
  have hunfold : getSingularResourceName r =
      if endswith_s r then rstrip_s r else r := by
    unfold getSingularResourceName
    rw [h]
  refine ⟨⟨rfl, rfl, by decide⟩, ?_, ?_⟩
  · rw [hunfold]
    by_cases hE : endswith_s r
    · rw [if_pos hE]
      refine ⟨(r.data.reverse.takeWhile (fun c => c == 's')).length, ?_⟩
      have hsplit := List.takeWhile_append_dropWhile (p := fun c => c == 's')
        (l := r.data.reverse)
      have htw : (r.data.reverse.takeWhile (fun c => c == 's')).reverse =
          List.replicate (r.data.reverse.takeWhile (fun c => c == 's')).length 's' := by
        rw [List.eq_replicate_iff]
        refine ⟨by simp, ?_⟩
        intro b hb
        have hmem := List.mem_takeWhile_imp (List.mem_reverse.mp hb)
        simpa using hmem
      calc r.data = r.data.reverse.reverse := (List.reverse_reverse _).symm
        _ = (r.data.reverse.takeWhile (fun c => c == 's') ++
              r.data.reverse.dropWhile (fun c => c == 's')).reverse := by rw [hsplit]
        _ = (r.data.reverse.dropWhile (fun c => c == 's')).reverse ++
              (r.data.reverse.takeWhile (fun c => c == 's')).reverse := by
              rw [List.reverse_append]
        _ = (rstrip_s r).data ++
              List.replicate (r.data.reverse.takeWhile (fun c => c == 's')).length 's' := by
              rw [htw]; rfl
    · rw [if_neg hE]
      exact ⟨0, by simp⟩
  · rw [hunfold]
    by_cases hE : endswith_s r
    · rw [if_pos hE]
      intro hlast
      have hhead : (r.data.reverse.dropWhile (fun c => c == 's')).head? = some 's' := by
        rw [← List.getLast?_reverse]
        exact hlast
      have := dropWhile_head_not (fun c => c == 's') r.data.reverse 's' hhead
      simp at this
    · rw [if_neg hE]
      intro hlast
      have : endswith_s r = true := by
        unfold endswith_s
        rw [hlast]
        rfl
      exact hE this

/-- C4 witness: the amended derivation evaluated at `"tickets"`. -/
theorem singularize_total_spec_witness :
    getSingularResourceName "tickets" = "ticket" :=
  (singularize_total_spec "tickets" (by decide)).1.1

/-! ## C7 — patient → enduser field mapping -/

/-- The synthesized fallback email is never the empty string. -/
theorem fallbackEmail_ne_empty (i : String) : (fallbackEmail i == "") = false := by
  rw [beq_eq_false_iff_ne]
  intro h
  have hlen := congrArg String.length h
  simp only [fallbackEmail] at hlen
  rw [String.length_append, String.length_append] at hlen
  have e1 : ("patient" : String).length = 7 := rfl
  have e2 : ("@canvas.medical" : String).length = 15 := rfl
  have e3 : ("" : String).length = 0 := rfl
  omega

/-- C7: the field mapping of the entity-creation sync maps sex code
`"M"` to gender `"Male"`, maps unmapped or absent sex codes to
`"Unknown"`, synthesizes `patient{id}@canvas.medical` when no email is
supplied, sets `externalId` to the string form of the source id, and
strips every empty-string or null value before submission; the scenario
entity `{id: "canvas_patient_123", sex: "M", email: None}` maps to
gender `"Male"`, email `"patientcanvas_patient_123@canvas.medical"`,
externalId `"canvas_patient_123"`, and no `dateOfBirth` key. -/
theorem patient_field_mapping (p : CanvasPatient) (now : String) :
    ((mapPatientToEnduser scenario_patient now).lookup "gender" = some (.vstr "Male") ∧
     (mapPatientToEnduser scenario_patient now).lookup "email" =
       some (.vstr "patientcanvas_patient_123@canvas.medical") ∧
     (mapPatientToEnduser scenario_patient now).lookup "externalId" =
       some (.vstr "canvas_patient_123") ∧
     (mapPatientToEnduser scenario_patient now).lookup "dateOfBirth" = none) ∧
    (p.sex = some "M" → ("gender", PyVal.vstr "Male") ∈ mapPatientToEnduser p now) ∧
    ((∀ s, gender_mapping.find? (fun q => q.1 == s) = none →
        lookupGender (some s) = "Unknown") ∧
      lookupGender none = "Unknown") ∧
    (p.email = none → ("email", PyVal.vstr (fallbackEmail p.id)) ∈ mapPatientToEnduser p now) ∧
    (p.id ≠ "" → ("externalId", PyVal.vstr p.id) ∈ mapPatientToEnduser p now) ∧
    (p.date_of_birth = none → ∀ v, ("dateOfBirth", v) ∉ mapPatientToEnduser p now) ∧
    (∀ kv ∈ mapPatientToEnduser p now, kv.2 ≠ PyVal.vnull ∧ kv.2 ≠ PyVal.vstr "") := by
  refine ⟨⟨rfl, rfl, rfl, rfl⟩, ?_, ⟨?_, rfl⟩, ?_, ?_, ?_, ?_⟩
  · intro hsex
    have hg : lookupGender p.sex = "Male" := by rw [hsex]; rfl
    refine List.mem_filter.mpr ⟨?_, rfl⟩
    simp [enduserBase, hg]
  · intro s hs
    simp [lookupGender, hs]
  · intro hmail
    have he : emailValue p = fallbackEmail p.id := by simp [emailValue, hmail]
    refine List.mem_filter.mpr ⟨?_, ?_⟩
    · simp [enduserBase, he]
    · simp [keepsValue, fallbackEmail_ne_empty]
  · intro hid
    have hb : (p.id == "") = false := beq_eq_false_iff_ne.mpr hid
    refine List.mem_filter.mpr ⟨?_, ?_⟩
    · simp [enduserBase]
    · simp [keepsValue, hb]
  · intro hdob v hmem
    have hb := (List.mem_filter.mp hmem).1
    have hk := (List.mem_filter.mp hmem).2
    have hd : dobValue p = PyVal.vnull := by simp [dobValue, hdob]
    simp [enduserBase, hd] at hb
    rw [hb] at hk
    simp [keepsValue] at hk
  · intro kv hmem
    have hk := (List.mem_filter.mp hmem).2
    constructor
    · intro hnull
      rw [hnull] at hk
      simp [keepsValue] at hk
    · intro hempty
      rw [hempty] at hk
      simp [keepsValue] at hk

/-- C7 witness: the scenario mapping evaluated with a fixed timestamp. -/
theorem patient_field_mapping_witness :
    (mapPatientToEnduser scenario_patient "ts").lookup "gender" = some (PyVal.vstr "Male") ∧
    ("externalId", PyVal.vstr "canvas_patient_123") ∈ mapPatientToEnduser scenario_patient "ts" :=
  ⟨(patient_field_mapping scenario_patient "ts").1.1,
   (patient_field_mapping scenario_patient "ts").2.2.2.2.1 (by decide)⟩

/-! ## C3 — idempotence of the entity-creation sync -/

/-- The mapped document carries `externalId = str(patient.id)` whenever
the id is non-empty (an empty id is stripped with the other empty
values). -/
theorem mapped_externalId (p : CanvasPatient) (t : String) (hid : p.id ≠ "") :
    (mapPatientToEnduser p t).lookup "externalId" = some (PyVal.vstr p.id) := by
  have hb : (p.id == "") = false := beq_eq_false_iff_ne.mpr hid
  simp [mapPatientToEnduser, enduserBase, keepsValue, hb, List.filter_cons, List.lookup]

/-- C3 counterexample: for the foreign patient entity whose id is the
empty string, the claim fails — the mapped document's `externalId` is
the empty string and is stripped
(src/protocols/canvas_patient_to_tellescope_enduser.py:248), so the
second run's `{"externalId": ""}` duplicate check finds nothing and the
sync creates a second record: both runs yield `Created`. -/
theorem sync_not_idempotent_for_empty_id :
    (computeSync [] empty_id_patient "t1").outcome = SyncOutcome.created ∧
    (computeSync (computeSync [] empty_id_patient "t1").store
        empty_id_patient "t2").outcome = SyncOutcome.created ∧
    (computeSync (computeSync [] empty_id_patient "t1").store
        empty_id_patient "t2").store.length = 2 :=
  ⟨rfl, rfl, rfl⟩

/-- C3 amended: for every foreign patient entity with a non-empty id,
running the sync twice against a store with no pre-existing matching
record yields `Created` then `AlreadyExists`, exactly one create call
is issued and exactly one record is added across both runs, and the
second run short-circuits on the duplicate check without creating. -/
theorem sync_creation_idempotent (store : List Doc) (p : CanvasPatient) (t1 t2 : String)
    (hid : p.id ≠ "") (hnone : find_by_externalId store p.id = none) :
    (computeSync store p t1).outcome = SyncOutcome.created ∧
    (computeSync store p t1).createCalls = 1 ∧
    (computeSync store p t1).store = store ++ [mapPatientToEnduser p t1] ∧
    (computeSync (computeSync store p t1).store p t2).outcome = SyncOutcome.alreadyExists ∧
    (computeSync (computeSync store p t1).store p t2).createCalls = 0 ∧
    (computeSync (computeSync store p t1).store p t2).store =
      store ++ [mapPatientToEnduser p t1] := by
  have h1 : computeSync store p t1 =
      ⟨.created, store ++ [mapPatientToEnduser p t1], 1⟩ := by
    rw [computeSync, computeSyncWith, find_existing_enduser, hnone]
  have hmatch : matchesExternalId p.id (mapPatientToEnduser p t1) = true := by
    rw [matchesExternalId, mapped_externalId p t1 hid]
    simp
  have h2 : find_by_externalId (store ++ [mapPatientToEnduser p t1]) p.id =
      some (mapPatientToEnduser p t1) := by
    rw [find_by_externalId, List.find?_append]
    rw [find_by_externalId] at hnone
    rw [hnone]
    simp [List.find?, hmatch]
  have h3 : computeSync (store ++ [mapPatientToEnduser p t1]) p t2 =
      ⟨.alreadyExists, store ++ [mapPatientToEnduser p t1], 0⟩ := by
    rw [computeSync, computeSyncWith, find_existing_enduser, h2]
  rw [h1, h3]
  exact ⟨rfl, rfl, rfl, rfl, rfl, rfl⟩

/-- C3 witness: the amended idempotence at the scenario patient on an
empty store. -/
theorem sync_creation_idempotent_witness :
    (computeSync [] scenario_patient "t1").outcome = SyncOutcome.created ∧
    (computeSync (computeSync [] scenario_patient "t1").store
        scenario_patient "t2").outcome = SyncOutcome.alreadyExists :=
  ⟨(sync_creation_idempotent [] scenario_patient "t1" "t2" (by decide) rfl).1,
   (sync_creation_idempotent [] scenario_patient "t1" "t2" (by decide) rfl).2.2.2.1⟩

/-! ## C5 — rate limiting of the field-sync-back sync -/

/-- A freshly set cache key is present. -/
theorem cacheSet_lookup_self (k : String) (v : CacheVal) (c : Cache) :
    (cacheSet k v c).lookup k = some v := by
  simp [cacheSet, List.lookup]

/-- A present cache key short-circuits the whole operation. -/
theorem metaCompute_rate_limited (json_loads : String → Option PyVal) (c : Cache)
    (pid : String) (lr : Except PyExc (Option Doc)) (t : String)
    (h : (c.lookup (cacheKey pid)).isSome = true) :
    metaCompute json_loads c pid lr t = ⟨[.logSuccess "rate_limited"], c, 0⟩ := by
  rw [metaCompute.eq_def, if_pos h]

/-- C5: two invocations of the field-sync-back sync for the same entity
id within the suppression window perform exactly one network lookup in
total: a first invocation with the cache key absent (and a
non-throwing lookup of a well-formed record) performs one lookup and
writes the key; the second invocation finds
`"patient_metadata_sync:{id}"` present and returns the rate-limited
outcome immediately with no network call and no cache modification. -/
theorem rate_limit_window (json_loads : String → Option PyVal) (cache : Cache)
    (pid : String) (r : Option Doc) (lr2 : Except PyExc (Option Doc)) (t1 t2 : String)
    (habs : cache.lookup (cacheKey pid) = none)
    (hid : ∀ d, r = some d → (d.lookup "id").isSome = true) :
    (metaCompute json_loads cache pid (.ok r) t1).lookups = 1 ∧
    ((metaCompute json_loads cache pid (.ok r) t1).cache.lookup (cacheKey pid)).isSome = true ∧
    (metaCompute json_loads (metaCompute json_loads cache pid (.ok r) t1).cache pid
        lr2 t2).lookups = 0 ∧
    (metaCompute json_loads (metaCompute json_loads cache pid (.ok r) t1).cache pid
        lr2 t2).effects = [MetaEffect.logSuccess "rate_limited"] ∧
    (metaCompute json_loads (metaCompute json_loads cache pid (.ok r) t1).cache pid
        lr2 t2).cache = (metaCompute json_loads cache pid (.ok r) t1).cache ∧
    (metaCompute json_loads cache pid (.ok r) t1).lookups +
      (metaCompute json_loads (metaCompute json_loads cache pid (.ok r) t1).cache pid
        lr2 t2).lookups = 1 := by
  have h1 : (metaCompute json_loads cache pid (.ok r) t1).lookups = 1 ∧
      ((metaCompute json_loads cache pid (.ok r) t1).cache.lookup
        (cacheKey pid)).isSome = true := by
    rw [metaCompute.eq_def, if_neg (by rw [habs]; simp)]
    cases r with
    | none => simp [cacheSet_lookup_self]
    | some d =>
      have hd := hid d rfl
      cases hidv : d.lookup "id" with
      | none => rw [hidv] at hd; simp at hd
      | some idv =>
        simp only [hidv]
        by_cases hcf : (extract_custom_fields json_loads d).isEmpty
        · simp [hcf, cacheSet_lookup_self]
        · simp [hcf, cacheSet_lookup_self]
  have h2 := metaCompute_rate_limited json_loads
    (metaCompute json_loads cache pid (.ok r) t1).cache pid lr2 t2 h1.2
  rw [h2]
  exact ⟨h1.1, h1.2, rfl, rfl, rfl, by rw [h1.1]; rfl⟩

/-- C5 witness: the suppression window at a concrete entity id with an
absent-enduser first pass. -/
theorem rate_limit_window_witness :
    (metaCompute (fun _ => none) [] "p1" (.ok none) "t1").lookups = 1 ∧
    (metaCompute (fun _ => none) (metaCompute (fun _ => none) [] "p1" (.ok none) "t1").cache
        "p1" (.ok none) "t2").effects = [MetaEffect.logSuccess "rate_limited"] ∧
    (metaCompute (fun _ => none) (metaCompute (fun _ => none) [] "p1" (.ok none) "t1").cache
        "p1" (.ok none) "t2").lookups = 0 :=
  ⟨(rate_limit_window (fun _ => none) [] "p1" none (.ok none) "t1" "t2" rfl
      (fun _d h => nomatch h)).1,
   (rate_limit_window (fun _ => none) [] "p1" none (.ok none) "t1" "t2" rfl
      (fun _d h => nomatch h)).2.2.2.1,
   (rate_limit_window (fun _ => none) [] "p1" none (.ok none) "t1" "t2" rfl
      (fun _d h => nomatch h)).2.2.1⟩

end Tellescope
